import Mathlib

/-!
Verification of the python-dvbv5 repository: a shallow embedding in Lean 4 of
the pure control logic of the library wrappers (`src/dvbv5/*.py`) and of the
two example programs (`src/examples/dvbv5-scan.py`,
`src/examples/dvbv5-zap-wrapper.py`).

Native libdvbv5 calls are modelled by their observable interface: the integer
return code (and, for value-returning calls, the produced value) is an input
of the embedded function, exactly as the python wrapper only inspects that
return code.  Python exceptions are modelled with `Except`; a raised and
uncaught exception is an `Except.error`.
-/

namespace Dvbv5

/-! ## Constants from `dvb_frontend.py` and `dvb_v5_std.py` -/

/-- `FEStatus.FE_HAS_LOCK = 0x10` (dvb_frontend.py line 104). -/
def FE_HAS_LOCK : Nat := 0x10

/-- `DTV_MAX_COMMAND = DVBv5PropertyCommand.DTV_SCRAMBLING_SEQUENCE_INDEX = 70`
(dvb_frontend.py line 207). -/
def DTV_MAX_COMMAND : Nat := 70

/-- `DVBv5PropertyCommand.DTV_FREQUENCY = 3` (dvb_frontend.py line 116). -/
def DTV_FREQUENCY : Nat := 3

/-- `DVBv5PropertyCommand.DTV_DELIVERY_SYSTEM = 17` (dvb_frontend.py line 132). -/
def DTV_DELIVERY_SYSTEM : Nat := 17

/-- `DTV_USER_COMMAND_START = 256` (dvb_v5_std.py line 8). -/
def DTV_USER_COMMAND_START : Nat := 256

/-- `DTV_MAX_USER_COMMAND = DTVUserPropertyCommand.DTV_COUNTRY_CODE
  = DTV_USER_COMMAND_START + 12 = 268` (dvb_v5_std.py lines 57, 63). -/
def DTV_MAX_USER_COMMAND : Nat := DTV_USER_COMMAND_START + 12

/-- `DTV_STAT_COMMAND_START = 512` (dvb_v5_std.py line 77). -/
def DTV_STAT_COMMAND_START : Nat := 512

/-- `MAX_DELIVERY_SYSTEMS = 20` (dvb_fe.py line 28). -/
def MAX_DELIVERY_SYSTEMS : Nat := 20

/-- `status & FE_HAS_LOCK` truthiness test used by the polling loops. -/
def hasLockBit (status : Nat) : Bool := status &&& FE_HAS_LOCK != 0

/-! ## The lock-acquisition polling loop (`check_frontend`, dvbv5-scan.py lines 17-40)

The loop's interaction with the outside world at iteration `i` (the value of
`timeout_cnt` at the top of the body) is:
  * `abortAt i`    — the value of `parms.abort` read at the top of the body;
  * `retrieveAt i` — the result of `dvb_fe_retrieve_stats(parms, DTV_STATUS)`:
    `some s` when the call returns status `s`, `none` when it raises (the
    python `except: pass` keeps the previous `status` in that case).
The `dvb_fe_get_stats` call only prints on failure and returns no value, so it
has no effect on the loop state and is not modelled.
-/

/-- How `check_frontend` exited: `aborted` via `return 0` at line 22, `locked`
via the `break` at line 35 (or the final return with the lock bit set),
`timedOut` via the final `return -1` with the lock bit clear. -/
inductive FEOutcome where
  | aborted
  | locked
  | timedOut
deriving DecidableEq, Repr

/-- One execution of the `while timeout_cnt < (40 * timeout_multiply)` loop of
`check_frontend`, with `fuel = bound - timeout_cnt` remaining iterations.
Returns the exit cause and the final value of `timeout_cnt` (the number of
completed poll ticks: status read + 1 s sleep + counter increment). -/
def checkFrontendLoop (abortAt : Nat → Bool) (retrieveAt : Nat → Option Nat) :
    Nat → Nat → Nat → FEOutcome × Nat
  | status, cnt, 0 =>
      (if hasLockBit status then FEOutcome.locked else FEOutcome.timedOut, cnt)
  | status, cnt, fuel + 1 =>
      if abortAt cnt then (FEOutcome.aborted, cnt)
      else if hasLockBit ((retrieveAt cnt).getD status) then (FEOutcome.locked, cnt)
      else checkFrontendLoop abortAt retrieveAt ((retrieveAt cnt).getD status) (cnt + 1) fuel

/-- `check_frontend(args, parms)` with `args['timeout_multiply'] = m`:
`status` starts at `FE_NONE = 0`, `timeout_cnt` at 0, and the loop runs while
`timeout_cnt < 40 * m`. -/
def check_frontend (m : Nat) (abortAt : Nat → Bool) (retrieveAt : Nat → Option Nat) :
    FEOutcome × Nat :=
  checkFrontendLoop abortAt retrieveAt 0 0 (40 * m)

/-- The integer value `check_frontend` returns for each exit cause:
`return 0` on abort (line 22), `return 0` with lock, `return -1` otherwise. -/
def check_frontend_ret : FEOutcome → Int
  | FEOutcome.aborted => 0
  | FEOutcome.locked => 0
  | FEOutcome.timedOut => -1

/-! ## The scan-session loop (`run_scan`, dvbv5-scan.py lines 71-96)

For each entry of the channel file, `run_scan`:
  1. retrieves `DTV_FREQUENCY` from the entry; a `KeyError` (native lookup
     failed) is caught and the entry is skipped (`continue`);
  2. calls `dmx_fd.dvb_dev_scan(...)` — the tune commit plus table scan;
  3. checks `parms.abort` and `break`s if set;
  4. if the scan handler is `None`, prints and `continue`s;
  5. otherwise stores the channel with `dvb_store_channel`.

Interaction at the n-th performed scan (scans are numbered from 0):
  * `abortAfter n` — the value of `parms.abort` read at step 3;
  * `scanOk n`     — whether `dvb_dev_scan` returned a descriptor
    (`true`) or `None` (`false`).
An entry is summarised by whether step 1 succeeds (`hasFreq`). -/

/-- The `for entry in _dvb_file.entry` loop of `run_scan`.  `n` is the number
of scans performed so far; returns the total number of scans performed
(i.e. of tune commits issued) and the list of scan numbers whose results
were stored by `dvb_store_channel`, in order. -/
def runScanLoop (abortAfter : Nat → Bool) (scanOk : Nat → Bool) :
    List Bool → Nat → Nat × List Nat
  | [], n => (n, [])
  | hasFreq :: rest, n =>
      if hasFreq then
        -- dvb_dev_scan performed: this is scan number n
        if abortAfter n then (n + 1, [])
        else if scanOk n then
          ((runScanLoop abortAfter scanOk rest (n + 1)).1,
            n :: (runScanLoop abortAfter scanOk rest (n + 1)).2)
        else runScanLoop abortAfter scanOk rest (n + 1)
      else runScanLoop abortAfter scanOk rest n

/-- `run_scan` starts the session with no scan performed yet. -/
def run_scan (abortAfter : Nat → Bool) (scanOk : Nat → Bool) (entries : List Bool) :
    Nat × List Nat :=
  runScanLoop abortAfter scanOk entries 0

/-! ## Wrapper functions raising on native failure -/

/-- `dvb_retrieve_entry_prop` (dvb_file.py lines 277-292): raises `KeyError`
iff the native call returns non-zero, else returns the produced value. -/
def dvb_retrieve_entry_prop (ret : Int) (val : Nat) : Except String Nat :=
  if ret != 0 then Except.error "Entry does not exist!" else Except.ok val

/-- `dvb_dev_scan` (dvb_dev.py lines 375-404): when the native call returns a
null pointer the wrapper returns `None` instead of raising; otherwise it wraps
the descriptor.  It never raises on a null result. -/
def dvb_dev_scan (res : Option Nat) : Option Nat :=
  match res with
  | some d => some d
  | none => none

/-! ## Property Store wrappers (`dvb_fe.py`)

Each wrapper performs exactly one native call and inspects only its integer
return code `ret` (plus, for `dvb_fe_retrieve_parm`, the out-parameter value
`val` filled by the native call). -/

/-- `dvb_set_compat_delivery_system` (dvb_fe.py lines 104-107): raises
`ValueError` iff the native call returns a negative value. -/
def dvb_set_compat_delivery_system (ret : Int) : Except String Unit :=
  if ret < 0 then Except.error "Set compat delivery system unsuccessful!"
  else Except.ok ()

/-- `dvb_fe_retrieve_parm` (dvb_fe.py lines 110-124): raises `ValueError` iff
the native lookup returns non-zero, else returns the cached 32-bit value. -/
def dvb_fe_retrieve_parm (ret : Int) (val : Nat) : Except String Nat :=
  if ret != 0 then Except.error "Retrieve parm unsuccessful!" else Except.ok val

/-- `dvb_fe_store_parm` (dvb_fe.py lines 127-138): raises `ValueError` iff the
native store returns a negative value. -/
def dvb_fe_store_parm (ret : Int) : Except String Unit :=
  if ret < 0 then Except.error "Store parm unsuccessful!" else Except.ok ()

/-- `dvb_fe_set_parms` (dvb_fe.py lines 141-151): pushes the cached
properties to the hardware; raises `ValueError` iff the native batch write
returns non-zero. -/
def dvb_fe_set_parms (ret : Int) : Except String Unit :=
  if ret != 0 then Except.error "Set parms failed!" else Except.ok ()

/-- `dvb_dev_dmx_set_pesfilter` (dvb_dev.py lines 337-355): forwards its
arguments unchanged to the native filter-start call and raises iff that call
returns a negative value; on success it returns `None` and retains nothing.
`native` is the native call's return code as a function of the forwarded
arguments `(pid, pes_type, output, buffersize)`. -/
def dvb_dev_dmx_set_pesfilter (native : Nat → Nat → Nat → Nat → Int)
    (pid pes_type output buffersize : Nat) : Except String Unit :=
  if native pid pes_type output buffersize < 0 then
    Except.error "Failed to start filter!"
  else Except.ok ()

/-! ## The zap example's `parse` tail (dvbv5-zap-wrapper.py lines 70-78)

Once the entry is found, `parse`:
  1. retrieves `DTV_DELIVERY_SYSTEM` from the entry;
  2. calls `dvb_set_compat_delivery_system(parms, system)` — raising if the
     native resolution returns negative;
  3. copies every property of the entry except `DTV_DELIVERY_SYSTEM` into the
     cache with `dvb_fe_store_parm`.
`main` then calls `setup_frontend`, which issues the tune commit
`dvb_fe_set_parms` only after `parse` returned normally.
The hardware-facing calls are recorded as a trace. -/

/-- One native call issued while preparing and committing a tune. -/
inductive HWCall where
  | setCompatDeliverySystem (sys : Nat)
  | storeParm (cmd : Nat) (value : Nat)
  | setParms
deriving DecidableEq, Repr

/-- The `for k in entry.props` copy loop of `parse` (lines 75-78): skips the
`DTV_DELIVERY_SYSTEM` key, otherwise calls `dvb_fe_store_parm(parms, k, v)`;
an exception from the store aborts the loop and propagates.  `storeRet k v`
is the native store's return code.  Returns the trace of native store calls
issued and whether the loop completed without raising. -/
def copyPropsLoop (storeRet : Nat → Nat → Int) :
    List (Nat × Nat) → List HWCall × Bool
  | [] => ([], true)
  | (k, v) :: rest =>
      if k = DTV_DELIVERY_SYSTEM then copyPropsLoop storeRet rest
      else
        match dvb_fe_store_parm (storeRet k v) with
        | Except.error _ => ([HWCall.storeParm k v], false)
        | Except.ok _ =>
            ((HWCall.storeParm k v :: (copyPropsLoop storeRet rest).1),
              (copyPropsLoop storeRet rest).2)

/-- The delivery-system resolution and property copy of `parse` (lines 70-78),
followed by `main`'s tune commit in `setup_frontend` (`dvb_fe_set_parms`),
which only runs when `parse` returned without raising.  `compatRet` is the
native `dvb_set_compat_delivery_system` return code, `sys` the value of the
entry's `DTV_DELIVERY_SYSTEM` property, `props` the entry's property pairs in
iteration order.  Returns the trace of hardware-facing native calls and
whether the sequence completed without an exception. -/
def zapTuneSequence (compatRet : Int) (storeRet : Nat → Nat → Int)
    (sys : Nat) (props : List (Nat × Nat)) : List HWCall × Bool :=
  match dvb_set_compat_delivery_system compatRet with
  | Except.error _ => ([HWCall.setCompatDeliverySystem sys], false)
  | Except.ok _ =>
      if (copyPropsLoop storeRet props).2 then
        (HWCall.setCompatDeliverySystem sys ::
          ((copyPropsLoop storeRet props).1 ++ [HWCall.setParms]), true)
      else
        (HWCall.setCompatDeliverySystem sys :: (copyPropsLoop storeRet props).1,
          false)

/-! ## The `c_dvb_v5_fe_parms` ctypes structure (dvb_fe.py lines 31-50) -/

/-- Shallow model of the `c_dvb_v5_fe_parms` ctypes structure.  The
`c_dvb_frontend_info` record, the `lnb` pointer and the `logfunc` pointer are
modelled as opaque numeric identities; the two `c_char_p` charsets as
strings; `systems` is the fixed `c_int * MAX_DELIVERY_SYSTEMS` array. -/
structure CDvbV5FeParms where
  info : Nat
  version : Int
  has_v5_stats : Int
  current_sys : Int
  num_systems : Int
  systems : List Int
  legacy_fe : Int
  abort : Int
  lna : Int
  lnb : Nat
  sat_number : Int
  freq_bpf : Nat
  diseqc_wait : Nat
  verbose : Nat
  logfunc : Nat
  default_charset : String
  output_charset : String
deriving DecidableEq, Repr

/-- A python value held by a structure field, as seen through attribute
access. -/
inductive PyVal where
  | int (n : Int)
  | nat (n : Nat)
  | intArray (a : List Int)
  | str (s : String)
deriving DecidableEq, Repr

/-- Python attribute lookup on a `c_dvb_v5_fe_parms` instance: the attribute
table is exactly the `_fields_` list of the ctypes structure; any other name
raises `AttributeError` (modelled as `none`). -/
def feParmsGetAttr (p : CDvbV5FeParms) : String → Option PyVal
  | "info" => some (PyVal.nat p.info)
  | "version" => some (PyVal.int p.version)
  | "has_v5_stats" => some (PyVal.int p.has_v5_stats)
  | "current_sys" => some (PyVal.int p.current_sys)
  | "num_systems" => some (PyVal.int p.num_systems)
  | "systems" => some (PyVal.intArray p.systems)
  | "legacy_fe" => some (PyVal.int p.legacy_fe)
  | "abort" => some (PyVal.int p.abort)
  | "lna" => some (PyVal.int p.lna)
  | "lnb" => some (PyVal.nat p.lnb)
  | "sat_number" => some (PyVal.int p.sat_number)
  | "freq_bpf" => some (PyVal.nat p.freq_bpf)
  | "diseqc_wait" => some (PyVal.nat p.diseqc_wait)
  | "verbose" => some (PyVal.nat p.verbose)
  | "logfunc" => some (PyVal.nat p.logfunc)
  | "default_charset" => some (PyVal.str p.default_charset)
  | "output_charset" => some (PyVal.str p.output_charset)
  | _ => none

/-- The `DVBv5FEParms.systems` property (dvb_fe.py lines 86-91):
`[FEDeliverySystem(self._dvb_v5_fe_parms.system[i])
  for i in range(0, self._dvb_v5_fe_parms.num_systems)]`.
Note the comprehension reads attribute `"system"`; each element evaluation
performs that attribute access and then indexes the array. -/
def systemsProperty (p : CDvbV5FeParms) : Except String (List Int) :=
  (List.range p.num_systems.toNat).mapM (fun i =>
    match feParmsGetAttr p "system" with
    | some (PyVal.intArray a) =>
        match a[i]? with
        | some v => Except.ok v
        | none => Except.error "IndexError"
    | some _ => Except.error "TypeError"
    | none => Except.error "AttributeError: system")

/-- What the `systems` property's docstring and annotation promise
(`List[FEDeliverySystem]`, "Delivery systems supported by the hardware"):
the first `num_systems` slots of the `systems` array, in order.  Modelled
from the spec: "returns a list of exactly num_systems delivery systems taken
in order from the underlying fixed array". -/
def systemsPropertyIntended (p : CDvbV5FeParms) : List Int :=
  (List.range p.num_systems.toNat).filterMap (fun i => p.systems[i]?)

/-- The `DVBv5FEParms.abort` setter (dvb_fe.py lines 97-99):
`self._dvb_v5_fe_parms.abort = value`. -/
def setAbortField (p : CDvbV5FeParms) (value : Int) : CDvbV5FeParms :=
  { p with abort := value }

/-- A concrete `c_dvb_v5_fe_parms` state with one supported delivery system
(`num_systems = 1`, `systems[0] = 3`). -/
def sampleParms : CDvbV5FeParms :=
  { info := 7, version := 5, has_v5_stats := 1, current_sys := 3,
    num_systems := 1,
    systems := [3, 0, 0, 0, 0, 0, 0, 0, 0, 0, 0, 0, 0, 0, 0, 0, 0, 0, 0, 0],
    legacy_fe := 0, abort := 0, lna := -1, lnb := 0, sat_number := 0,
    freq_bpf := 0, diseqc_wait := 0, verbose := 0, logfunc := 0,
    default_charset := "utf8", output_charset := "utf8" }

/-! ## `DVBEntry.props` classification (dvb_file.py lines 77-94) -/

/-- A key of the `props` dictionary built by `DVBEntry.props`: the stored
command converted to `DVBv5PropertyCommand` (kernel), to
`DTVUserPropertyCommand` (user), or left as the raw integer. -/
inductive PropKey where
  | kernel (c : Nat)
  | user (c : Nat)
  | raw (c : Nat)
deriving DecidableEq, Repr

/-- The classification performed on each stored command (lines 87-92):
`if _cmd <= DTV_MAX_COMMAND`, `elif DTV_USER_COMMAND_START <= _cmd <=
DTV_MAX_USER_COMMAND`, `else` keep the raw integer. -/
def classifyCmd (c : Nat) : PropKey :=
  if c ≤ DTV_MAX_COMMAND then PropKey.kernel c
  else if DTV_USER_COMMAND_START ≤ c ∧ c ≤ DTV_MAX_USER_COMMAND then
    PropKey.user c
  else PropKey.raw c

/-- Python dict assignment `_p[cmd] = data`: replaces the value of an existing
key in place or appends the new pair at the end. -/
def dictInsert (k : PropKey) (v : Nat) : List (PropKey × Nat) → List (PropKey × Nat)
  | [] => [(k, v)]
  | (k', v') :: rest =>
      if k' = k then (k', v) :: rest else (k', v') :: dictInsert k v rest

/-- `DVBEntry.props` (lines 84-94): iterates the first `n_props` slots of the
entry's property array, classifies each command and fills the dictionary.
`props` is the underlying `c_dtv_property` array as (cmd, data) pairs. -/
def entryProps (props : List (Nat × Nat)) (n_props : Nat) : List (PropKey × Nat) :=
  (props.take n_props).foldl (fun d kv => dictInsert (classifyCmd kv.1) kv.2 d) []

/-! ## `DVBv5Descriptor.dvb_dev_close` (DVBv5.py lines 13-22)

The descriptor's state is its stored open descriptor
(`self._dvb_open_descriptor`), `none` once closed.  One call of
`dvb_dev_close` returns the new state and whether the native
`dvb_dev.dvb_dev_close` was issued.  The destructor `__del__` calls the same
method. -/
def dvb_dev_close_step : Option Nat → Option Nat × Bool
  | some _ => (none, true)
  | none => (none, false)

/-! ## Helper lemmas on the polling loop -/

/-- The tick counter only grows during the loop and grows by at most the
remaining fuel. -/
theorem checkFrontendLoop_ticks_le (abortAt : Nat → Bool)
    (retrieveAt : Nat → Option Nat) :
    ∀ (fuel status cnt : Nat),
      cnt ≤ (checkFrontendLoop abortAt retrieveAt status cnt fuel).2 ∧
      (checkFrontendLoop abortAt retrieveAt status cnt fuel).2 ≤ cnt + fuel := by
  intro fuel
  induction fuel with
  | zero => intro status cnt; simp [checkFrontendLoop]
  | succ fuel ih =>
      intro status cnt
      simp only [checkFrontendLoop]
      by_cases hab : abortAt cnt
      · simp [hab]
      · by_cases hl : hasLockBit ((retrieveAt cnt).getD status)
        · simp [hab, hl]
        · simp only [hab, hl, if_false, Bool.false_eq_true, if_neg,
            not_false_eq_true]
          have h := ih ((retrieveAt cnt).getD status) (cnt + 1)
          omega

/-- If the incoming status does not carry the lock bit, a `locked` exit
happens strictly before the fuel is exhausted. -/
theorem checkFrontendLoop_locked_lt (abortAt : Nat → Bool)
    (retrieveAt : Nat → Option Nat) :
    ∀ (fuel status cnt : Nat), hasLockBit status = false →
      (checkFrontendLoop abortAt retrieveAt status cnt fuel).1 = FEOutcome.locked →
      (checkFrontendLoop abortAt retrieveAt status cnt fuel).2 < cnt + fuel := by
  intro fuel
  induction fuel with
  | zero =>
      intro status cnt hs hres
      simp [checkFrontendLoop, hs] at hres
  | succ fuel ih =>
      intro status cnt hs hres
      simp only [checkFrontendLoop] at hres ⊢
      by_cases hab : abortAt cnt
      · simp [hab] at hres
      · by_cases hl : hasLockBit ((retrieveAt cnt).getD status)
        · simp [hab, hl]
        · simp only [hab, hl, Bool.false_eq_true, if_neg, not_false_eq_true] at hres ⊢
          have h := ih ((retrieveAt cnt).getD status) (cnt + 1)
            (by simpa using hl) hres
          omega

/-- If the abort flag reads true from iteration `k` on, the loop performs at
most `k` ticks; moreover, if the fuel outlasts `k` it exits by `aborted`
unless the lock bit was observed at some earlier iteration. -/
theorem checkFrontendLoop_abort_from (abortAt : Nat → Bool)
    (retrieveAt : Nat → Option Nat) (k : Nat)
    (habk : ∀ j, k ≤ j → abortAt j = true) :
    ∀ (fuel status cnt : Nat), cnt ≤ k →
      (checkFrontendLoop abortAt retrieveAt status cnt fuel).2 ≤ k ∧
      (k < cnt + fuel → hasLockBit status = false →
        (checkFrontendLoop abortAt retrieveAt status cnt fuel).1 = FEOutcome.aborted ∨
        ((checkFrontendLoop abortAt retrieveAt status cnt fuel).1 = FEOutcome.locked ∧
          (checkFrontendLoop abortAt retrieveAt status cnt fuel).2 < k)) := by
  intro fuel
  induction fuel with
  | zero =>
      intro status cnt hcnt
      refine ⟨by simpa [checkFrontendLoop] using hcnt, ?_⟩
      intro hk
      omega
  | succ fuel ih =>
      intro status cnt hcnt
      simp only [checkFrontendLoop]
      by_cases hab : abortAt cnt
      · simp [hab]
        exact hcnt
      · have hcnt' : cnt < k := by
          rcases Nat.lt_or_ge cnt k with h | h
          · exact h
          · exact absurd (habk cnt h) (by simpa using hab)
        by_cases hl : hasLockBit ((retrieveAt cnt).getD status)
        · rw [if_neg (by simpa using hab), if_pos hl]
          exact ⟨by omega, fun _ _ => Or.inr ⟨rfl, hcnt'⟩⟩
        · simp only [hab, hl, Bool.false_eq_true, if_neg, not_false_eq_true]
          have h := ih ((retrieveAt cnt).getD status) (cnt + 1) (by omega)
          refine ⟨h.1, ?_⟩
          intro hk _
          exact h.2 (by omega) (by simpa using hl)

/-! ## Helper lemmas on the scan-session loop -/

/-- With the abort flag never set, the session scans exactly the entries that
carry a frequency and stores exactly the scans that produced a descriptor. -/
theorem runScanLoop_no_abort (scanOk : Nat → Bool) :
    ∀ (entries : List Bool) (n : Nat),
      runScanLoop (fun _ => false) scanOk entries n =
        (n + entries.count true,
          (List.range' n (entries.count true)).filter (fun j => scanOk j)) := by
  intro entries
  induction entries with
  | nil => intro n; simp [runScanLoop]
  | cons e rest ih =>
      intro n
      cases e with
      | false =>
          simp [runScanLoop, ih n, List.count_cons]
      | true =>
          have hc : (true :: rest).count true = rest.count true + 1 := by
            simp [List.count_cons]
          rw [hc]
          simp only [runScanLoop, if_true, ih (n + 1)]
          rw [List.range'_succ]
          by_cases hs : scanOk n
          · simp [hs]
            omega
          · simp [hs]
            omega

/-- If the abort flag reads true from scan `i` on, at most `i + 1` scans (and
hence tune commits) are ever performed. -/
theorem runScanLoop_abort_bound (abortAfter scanOk : Nat → Bool) (i : Nat)
    (habi : ∀ j, i ≤ j → abortAfter j = true) :
    ∀ (entries : List Bool) (n : Nat), n ≤ i →
      (runScanLoop abortAfter scanOk entries n).1 ≤ i + 1 := by
  intro entries
  induction entries with
  | nil =>
      intro n hn
      simp [runScanLoop]
      omega
  | cons e rest ih =>
      intro n hn
      cases e with
      | false => simpa [runScanLoop] using ih n hn
      | true =>
          simp only [runScanLoop, if_true]
          by_cases hab : abortAfter n
          · simp [hab]
            omega
          · have hn' : n < i := by
              rcases Nat.lt_or_ge n i with h | h
              · exact h
              · exact absurd (habi n h) (by simpa using hab)
            by_cases hs : scanOk n
            · simp [hab, hs]
              exact ih (n + 1) (by omega)
            · simp [hab, hs]
              exact ih (n + 1) (by omega)

/-! ## Claim theorems -/

/-- Claim C1: for every `timeout_multiply` `m ≥ 1`, the `check_frontend`
polling loop of the scan example performs at most `40 * m` poll ticks before
returning its timed-out result, and strictly fewer ticks whenever the
`FE_HAS_LOCK` bit is observed in the retrieved status before the bound is
reached. -/
theorem check_frontend_tick_bound (m : Nat) (_hm : 1 ≤ m)
    (abortAt : Nat → Bool) (retrieveAt : Nat → Option Nat) :
    (check_frontend m abortAt retrieveAt).2 ≤ 40 * m ∧
    ((check_frontend m abortAt retrieveAt).1 = FEOutcome.locked →
      (check_frontend m abortAt retrieveAt).2 < 40 * m) := by
  constructor
  · have h := checkFrontendLoop_ticks_le abortAt retrieveAt (40 * m) 0 0
    simpa [check_frontend] using h.2
  · intro hres
    have h := checkFrontendLoop_locked_lt abortAt retrieveAt (40 * m) 0 0
      (by decide) hres
    simpa [check_frontend] using h

/-- Witness for C1 at `m = 1` with a status source that reports lock at the
third poll. -/
theorem check_frontend_tick_bound_witness :
    1 ≤ 1 ∧
    ((check_frontend 1 (fun _ => false)
        (fun i => if i = 2 then some 0x1f else some 0)).2 ≤ 40 * 1 ∧
      ((check_frontend 1 (fun _ => false)
          (fun i => if i = 2 then some 0x1f else some 0)).1 = FEOutcome.locked →
        (check_frontend 1 (fun _ => false)
            (fun i => if i = 2 then some 0x1f else some 0)).2 < 40 * 1)) :=
  ⟨le_refl 1,
    check_frontend_tick_bound 1 (le_refl 1) (fun _ => false)
      (fun i => if i = 2 then some 0x1f else some 0)⟩

/-- Claim C2: if the shared abort flag reads true from tick `k` of the
acquisition loop on, the loop performs at most `k` ticks and — when the tick
bound has not already been reached — exits as `aborted` unless lock was
already observed strictly before tick `k` (the flag is checked once at the
top of each tick); and in the scan session, if the abort flag reads true when
checked after scan `i`, at most `i + 1` tune commits are ever performed: the
session loop stops before tuning the next transponder entry. -/
theorem abort_cooperative_cancellation (m k i : Nat)
    (abortAt : Nat → Bool) (retrieveAt : Nat → Option Nat)
    (abortAfter scanOk : Nat → Bool) (entries : List Bool)
    (hA : ∀ j, k ≤ j → abortAt j = true)
    (hB : ∀ j, i ≤ j → abortAfter j = true) :
    (check_frontend m abortAt retrieveAt).2 ≤ k ∧
    (k < 40 * m →
      (check_frontend m abortAt retrieveAt).1 = FEOutcome.aborted ∨
      ((check_frontend m abortAt retrieveAt).1 = FEOutcome.locked ∧
        (check_frontend m abortAt retrieveAt).2 < k)) ∧
    (run_scan abortAfter scanOk entries).1 ≤ i + 1 := by
  have h := checkFrontendLoop_abort_from abortAt retrieveAt k hA (40 * m) 0 0
    (Nat.zero_le k)
  refine ⟨by simpa [check_frontend] using h.1, ?_, ?_⟩
  · intro hk
    have := h.2 (by omega) (by decide)
    simpa [check_frontend] using this
  · exact runScanLoop_abort_bound abortAfter scanOk i hB entries 0 (Nat.zero_le i)

/-- Witness for C2: flag permanently set; the loop aborts with 0 ticks and
the session performs exactly one scan. -/
theorem abort_cooperative_cancellation_witness :
    (check_frontend 1 (fun _ => true) (fun _ => some 0)).2 ≤ 2 ∧
    (2 < 40 * 1 →
      (check_frontend 1 (fun _ => true) (fun _ => some 0)).1 = FEOutcome.aborted ∨
      ((check_frontend 1 (fun _ => true) (fun _ => some 0)).1 = FEOutcome.locked ∧
        (check_frontend 1 (fun _ => true) (fun _ => some 0)).2 < 2)) ∧
    (run_scan (fun _ => true) (fun _ => true) [true, true, true]).1 ≤ 0 + 1 :=
  abort_cooperative_cancellation 1 2 0 (fun _ => true) (fun _ => some 0)
    (fun _ => true) (fun _ => true) [true, true, true]
    (fun _ _ => rfl) (fun _ _ => rfl)

/-- Claim C6: with the abort flag clear, the scan session skips entries
lacking a frequency without raising, survives scans that return no
descriptor, and stores exactly the results of the scans that succeeded;
moreover `dvb_dev_scan` returns `None` (it does not raise) when the native
scan produces nothing. -/
theorem run_scan_best_effort (entries : List Bool) (scanOk : Nat → Bool) :
    (run_scan (fun _ => false) scanOk entries).1 = entries.count true ∧
    (run_scan (fun _ => false) scanOk entries).2 =
      (List.range (entries.count true)).filter (fun j => scanOk j) ∧
    dvb_dev_scan none = none := by
  have h := runScanLoop_no_abort scanOk entries 0
  refine ⟨?_, ?_, rfl⟩
  · simp [run_scan, h]
  · simp [run_scan, h, List.range_eq_range']

/-! ## Helper lemmas on the zap `parse` trace -/

/-- The property-copy loop never issues a store for the
`DTV_DELIVERY_SYSTEM` key. -/
theorem copyPropsLoop_no_delivery_system (storeRet : Nat → Nat → Int) :
    ∀ (props : List (Nat × Nat)) (v : Nat),
      HWCall.storeParm DTV_DELIVERY_SYSTEM v ∉ (copyPropsLoop storeRet props).1 := by
  intro props
  induction props with
  | nil => intro v; simp [copyPropsLoop]
  | cons kv rest ih =>
      intro v
      obtain ⟨k, w⟩ := kv
      simp only [copyPropsLoop]
      by_cases hk : k = DTV_DELIVERY_SYSTEM
      · simpa [hk] using ih v
      · unfold dvb_fe_store_parm
        by_cases hs : storeRet k w < 0
        · simp [hs, hk]
          intro he
          exact absurd he.symm hk
        · simp [hs, hk]
          constructor
          · intro he
            exact absurd he.symm hk
          · exact ih v

/-! ## Remaining claim theorems -/

/-- Claim C3: in the zap example's `parse`, delivery-system resolution
(`dvb_set_compat_delivery_system`) is the first hardware-facing call — it
precedes every `dvb_fe_store_parm`; the `DTV_DELIVERY_SYSTEM` key is never
stored by the property-copy loop; and when the native resolution returns a
negative value the raised exception leaves the trace with no stored property
and no tune command. -/
theorem delivery_resolution_before_store (compatRet : Int)
    (storeRet : Nat → Nat → Int) (sys : Nat) (props : List (Nat × Nat)) :
    (zapTuneSequence compatRet storeRet sys props).1.head? =
      some (HWCall.setCompatDeliverySystem sys) ∧
    (∀ v, HWCall.storeParm DTV_DELIVERY_SYSTEM v ∉
      (zapTuneSequence compatRet storeRet sys props).1) ∧
    (compatRet < 0 →
      (zapTuneSequence compatRet storeRet sys props).1 =
        [HWCall.setCompatDeliverySystem sys] ∧
      (zapTuneSequence compatRet storeRet sys props).2 = false) := by
  unfold zapTuneSequence dvb_set_compat_delivery_system
  by_cases hc : compatRet < 0
  · simp [hc]
  · by_cases hok : (copyPropsLoop storeRet props).2
    · simp [hc, hok]
      intro v
      exact copyPropsLoop_no_delivery_system storeRet props v
    · simp [hc, hok]
      exact fun v => copyPropsLoop_no_delivery_system storeRet props v

/-- Witness for C3 with a failing resolution and one non-delivery-system
property. -/
theorem delivery_resolution_before_store_witness :
    (zapTuneSequence (-1) (fun _ _ => 0) 3 [(3, 474000000)]).1.head? =
      some (HWCall.setCompatDeliverySystem 3) ∧
    (∀ v, HWCall.storeParm DTV_DELIVERY_SYSTEM v ∉
      (zapTuneSequence (-1) (fun _ _ => 0) 3 [(3, 474000000)]).1) ∧
    (-1 < (0 : Int) →
      (zapTuneSequence (-1) (fun _ _ => 0) 3 [(3, 474000000)]).1 =
        [HWCall.setCompatDeliverySystem 3] ∧
      (zapTuneSequence (-1) (fun _ _ => 0) 3 [(3, 474000000)]).2 = false) :=
  delivery_resolution_before_store (-1) (fun _ _ => 0) 3 [(3, 474000000)]

/-- Claim C4 (code observation): on a frontend state with `num_systems = 1`,
reading the `DVBv5FEParms.systems` property raises `AttributeError` —
the comprehension accesses attribute `system`, which is not among the
structure's fields (the array field is named `systems`) — instead of
returning the one-element list the docstring promises. -/
theorem systems_property_attribute_error :
    systemsProperty sampleParms = Except.error "AttributeError: system" ∧
    sampleParms.num_systems = 1 ∧
    feParmsGetAttr sampleParms "system" = none ∧
    feParmsGetAttr sampleParms "systems" =
      some (PyVal.intArray sampleParms.systems) ∧
    systemsPropertyIntended sampleParms = [3] ∧
    sampleParms.systems.length = MAX_DELIVERY_SYSTEMS ∧
    MAX_DELIVERY_SYSTEMS = 20 := by
  exact ⟨rfl, rfl, rfl, rfl, rfl, rfl, rfl⟩

/-! ## Helper lemmas on the props dictionary -/

/-- The inserted key is present after a dict assignment. -/
theorem dictInsert_mem_self (k : PropKey) (v : Nat) :
    ∀ d : List (PropKey × Nat), ∃ w, (k, w) ∈ dictInsert k v d := by
  intro d
  induction d with
  | nil => exact ⟨v, by simp [dictInsert]⟩
  | cons kv rest ih =>
      obtain ⟨k', v'⟩ := kv
      by_cases hk : k' = k
      · exact ⟨v, by simp [dictInsert, hk]⟩
      · obtain ⟨w, hw⟩ := ih
        exact ⟨w, by simp [dictInsert, hk, hw]⟩

/-- Keys already present survive a dict assignment. -/
theorem dictInsert_mem_preserve (k' : PropKey) (v' : Nat) (k : PropKey) :
    ∀ d : List (PropKey × Nat), (∃ w, (k, w) ∈ d) →
      ∃ w, (k, w) ∈ dictInsert k' v' d := by
  intro d
  induction d with
  | nil => intro h; simp at h
  | cons kv rest ih =>
      intro h
      obtain ⟨a, b⟩ := kv
      obtain ⟨w, hw⟩ := h
      rcases List.mem_cons.1 hw with heq | hmem
      · by_cases ha : a = k'
        · have hka : k = a := by
            have := Prod.mk.injEq .. ▸ heq
            exact (Prod.mk.injEq k w a b ▸ heq).1
          subst hka
          exact ⟨v', by simp [dictInsert, ha]⟩
        · have hka : k = a ∧ w = b := Prod.mk.injEq k w a b ▸ heq
          exact ⟨w, by simp [dictInsert, ha, hka.1, hka.2]⟩
      · by_cases ha : a = k'
        · exact ⟨w, by simp [dictInsert, ha, hmem]⟩
        · obtain ⟨u, hu⟩ := ih ⟨w, hmem⟩
          exact ⟨u, by simp [dictInsert, ha, hu]⟩

/-- Keys present in the accumulator survive the whole dictionary build. -/
theorem foldl_dict_mem_preserve (k : PropKey) :
    ∀ (l : List (Nat × Nat)) (d : List (PropKey × Nat)), (∃ w, (k, w) ∈ d) →
      ∃ w, (k, w) ∈
        l.foldl (fun d kv => dictInsert (classifyCmd kv.1) kv.2 d) d := by
  intro l
  induction l with
  | nil => intro d h; simpa using h
  | cons kv rest ih =>
      intro d h
      exact ih (dictInsert (classifyCmd kv.1) kv.2 d)
        (dictInsert_mem_preserve (classifyCmd kv.1) kv.2 k d h)

/-- Every command occurring in the processed slots ends up, classified, as a
key of the built dictionary. -/
theorem foldl_dict_mem (cmd v : Nat) :
    ∀ (l : List (Nat × Nat)) (d : List (PropKey × Nat)), (cmd, v) ∈ l →
      ∃ w, (classifyCmd cmd, w) ∈
        l.foldl (fun d kv => dictInsert (classifyCmd kv.1) kv.2 d) d := by
  intro l
  induction l with
  | nil => intro d h; simp at h
  | cons kv rest ih =>
      intro d h
      rcases List.mem_cons.1 h with heq | hmem
      · subst heq
        exact foldl_dict_mem_preserve (classifyCmd cmd) rest
          (dictInsert (classifyCmd cmd) v d) (dictInsert_mem_self _ v d)
      · exact ih (dictInsert (classifyCmd kv.1) kv.2 d) hmem

/-- Claim C5: the code's property-identifier ranges are
`DTV_MAX_COMMAND = 70`, user commands `256..268`, statistics commands from
`512`; `DVBEntry.props` classifies every stored command at most 70 as a
kernel command, every command in `[256, 268]` as a user command, and leaves
any other value as a raw integer key. -/
theorem prop_identifier_ranges :
    DTV_MAX_COMMAND = 70 ∧ DTV_USER_COMMAND_START = 256 ∧
    DTV_MAX_USER_COMMAND = 268 ∧ DTV_STAT_COMMAND_START = 512 ∧
    (∀ c : Nat,
      (c ≤ 70 → classifyCmd c = PropKey.kernel c) ∧
      (256 ≤ c ∧ c ≤ 268 → classifyCmd c = PropKey.user c) ∧
      (70 < c ∧ (c < 256 ∨ 268 < c) → classifyCmd c = PropKey.raw c)) ∧
    (∀ (props : List (Nat × Nat)) (n cmd v : Nat), (cmd, v) ∈ props.take n →
      ∃ w, (classifyCmd cmd, w) ∈ entryProps props n) := by
  refine ⟨rfl, rfl, rfl, rfl, ?_, ?_⟩
  · intro c
    refine ⟨?_, ?_, ?_⟩
    · intro hc
      simp [classifyCmd, DTV_MAX_COMMAND, hc]
    · intro hc
      have h1 : ¬c ≤ DTV_MAX_COMMAND := by
        simp only [DTV_MAX_COMMAND]; omega
      have h2 : DTV_USER_COMMAND_START ≤ c ∧ c ≤ DTV_MAX_USER_COMMAND := by
        simp only [DTV_USER_COMMAND_START, DTV_MAX_USER_COMMAND]; omega
      simp [classifyCmd, h1, h2]
    · intro hc
      have h1 : ¬c ≤ DTV_MAX_COMMAND := by
        simp only [DTV_MAX_COMMAND]; omega
      have h2 : ¬(DTV_USER_COMMAND_START ≤ c ∧ c ≤ DTV_MAX_USER_COMMAND) := by
        simp only [DTV_USER_COMMAND_START, DTV_MAX_USER_COMMAND]; omega
      simp [classifyCmd, h1, h2]
  · intro props n cmd v hmem
    exact foldl_dict_mem cmd v (props.take n) [] hmem

/-- Witness for C5 on an entry holding a kernel, a user and an out-of-range
command. -/
theorem prop_identifier_ranges_witness :
    classifyCmd 3 = PropKey.kernel 3 ∧
    classifyCmd 260 = PropKey.user 260 ∧
    classifyCmd 300 = PropKey.raw 300 ∧
    (∃ w, (classifyCmd 3, w) ∈ entryProps [(3, 474000000), (260, 1)] 2) :=
  ⟨(prop_identifier_ranges.2.2.2.2.1 3).1 (by omega),
    (prop_identifier_ranges.2.2.2.2.1 260).2.1 (by omega),
    (prop_identifier_ranges.2.2.2.2.1 300).2.2 (by omega),
    prop_identifier_ranges.2.2.2.2.2 [(3, 474000000), (260, 1)] 2 3 474000000
      (by simp)⟩

/-- Claim C7: `dvb_fe_retrieve_parm` returns the cached value and raises iff
the native lookup returns non-zero; `dvb_fe_store_parm` raises iff the native
store returns a negative value; `dvb_fe_set_parms` raises iff the native
batch write returns non-zero (so a partially-accepted batch reported as 0
does not raise). -/
theorem property_store_error_conditions (r1 r2 r3 : Int) (v : Nat) :
    (dvb_fe_retrieve_parm r1 v = Except.ok v ↔ r1 = 0) ∧
    (r1 ≠ 0 →
      dvb_fe_retrieve_parm r1 v = Except.error "Retrieve parm unsuccessful!") ∧
    (dvb_fe_store_parm r2 = Except.ok () ↔ 0 ≤ r2) ∧
    (r2 < 0 →
      dvb_fe_store_parm r2 = Except.error "Store parm unsuccessful!") ∧
    (dvb_fe_set_parms r3 = Except.ok () ↔ r3 = 0) ∧
    (r3 ≠ 0 → dvb_fe_set_parms r3 = Except.error "Set parms failed!") := by
  unfold dvb_fe_retrieve_parm dvb_fe_store_parm dvb_fe_set_parms
  refine ⟨?_, ?_, ?_, ?_, ?_, ?_⟩
  · by_cases h : r1 = 0 <;> simp [h]
  · intro h; simp [h]
  · by_cases h : r2 < 0
    · simp [h]
    · simp [h]
      omega
  · intro h; simp [h]
  · by_cases h : r3 = 0 <;> simp [h]
  · intro h; simp [h]

/-- Witness for C7 at return codes 0, -1 (and v = 7). -/
theorem property_store_error_conditions_witness :
    (dvb_fe_retrieve_parm (-1) 7 = Except.ok 7 ↔ (-1 : Int) = 0) ∧
    ((-1 : Int) ≠ 0 →
      dvb_fe_retrieve_parm (-1) 7 =
        Except.error "Retrieve parm unsuccessful!") ∧
    (dvb_fe_store_parm (-1) = Except.ok () ↔ (0 : Int) ≤ -1) ∧
    ((-1 : Int) < 0 →
      dvb_fe_store_parm (-1) = Except.error "Store parm unsuccessful!") ∧
    (dvb_fe_set_parms (-1) = Except.ok () ↔ (-1 : Int) = 0) ∧
    ((-1 : Int) ≠ 0 → dvb_fe_set_parms (-1) = Except.error "Set parms failed!") :=
  property_store_error_conditions (-1) (-1) (-1) 7

/-- Claim C8: the filter configurator forwards any PID in `0..0x2000` to the
native call, raises exactly when that call returns a negative value, and on
success returns `()` keeping no state. -/
theorem pesfilter_pass_through (native : Nat → Nat → Nat → Nat → Int)
    (pid pes_type output buffersize : Nat) (_hpid : pid ≤ 0x2000) :
    (dvb_dev_dmx_set_pesfilter native pid pes_type output buffersize =
        Except.error "Failed to start filter!" ↔
      native pid pes_type output buffersize < 0) ∧
    (0 ≤ native pid pes_type output buffersize →
      dvb_dev_dmx_set_pesfilter native pid pes_type output buffersize =
        Except.ok ()) := by
  unfold dvb_dev_dmx_set_pesfilter
  by_cases h : native pid pes_type output buffersize < 0
  · simp [h]
  · simp [h]

/-- Witness for C8 at the all-PID sentinel with a rejecting native call. -/
theorem pesfilter_pass_through_witness :
    (dvb_dev_dmx_set_pesfilter (fun _ _ _ _ => -22) 0x2000 20 1 0 =
        Except.error "Failed to start filter!" ↔ (-22 : Int) < 0) ∧
    ((0 : Int) ≤ -22 →
      dvb_dev_dmx_set_pesfilter (fun _ _ _ _ => -22) 0x2000 20 1 0 =
        Except.ok ()) :=
  pesfilter_pass_through (fun _ _ _ _ => -22) 0x2000 20 1 0 (by omega)

/-- Claim C9: closing a `DVBv5Descriptor` is idempotent: the first call on an
open descriptor issues the native close and clears the stored descriptor to
`None`; every subsequent call (including the destructor's) observes `None`
and performs no further native close. -/
theorem dvb_dev_close_idempotent (s : Option Nat) :
    (dvb_dev_close_step s).1 = none ∧
    dvb_dev_close_step (dvb_dev_close_step s).1 = (none, false) ∧
    (∀ h : Nat, s = some h → (dvb_dev_close_step s).2 = true) ∧
    (s = none → (dvb_dev_close_step s).2 = false) := by
  cases s <;> simp [dvb_dev_close_step]

/-- Witness for C9 on a descriptor holding native handle 3. -/
theorem dvb_dev_close_idempotent_witness :
    (dvb_dev_close_step (some 3)).1 = none ∧
    dvb_dev_close_step (dvb_dev_close_step (some 3)).1 = (none, false) ∧
    (∀ h : Nat, some 3 = some h → (dvb_dev_close_step (some 3)).2 = true) ∧
    (some 3 = (none : Option Nat) → (dvb_dev_close_step (some 3)).2 = false) :=
  dvb_dev_close_idempotent (some 3)

/-- Claim C10: the `DVBv5FEParms.abort` setter writes only the `abort` field
of the underlying `c_dvb_v5_fe_parms` structure; every other field is
unchanged. -/
theorem abort_setter_frame (p : CDvbV5FeParms) (v : Int) :
    (setAbortField p v).abort = v ∧
    (setAbortField p v).info = p.info ∧
    (setAbortField p v).version = p.version ∧
    (setAbortField p v).has_v5_stats = p.has_v5_stats ∧
    (setAbortField p v).current_sys = p.current_sys ∧
    (setAbortField p v).num_systems = p.num_systems ∧
    (setAbortField p v).systems = p.systems ∧
    (setAbortField p v).legacy_fe = p.legacy_fe ∧
    (setAbortField p v).lna = p.lna ∧
    (setAbortField p v).lnb = p.lnb ∧
    (setAbortField p v).sat_number = p.sat_number ∧
    (setAbortField p v).freq_bpf = p.freq_bpf ∧
    (setAbortField p v).diseqc_wait = p.diseqc_wait ∧
    (setAbortField p v).verbose = p.verbose ∧
    (setAbortField p v).logfunc = p.logfunc ∧
    (setAbortField p v).default_charset = p.default_charset ∧
    (setAbortField p v).output_charset = p.output_charset :=
  ⟨rfl, rfl, rfl, rfl, rfl, rfl, rfl, rfl, rfl, rfl, rfl, rfl, rfl, rfl, rfl,
    rfl, rfl⟩

end Dvbv5
